import Mathlib

/-!
# astra_orion: the ASTRA DAO front-end and its mock Anchor client

A shallow embedding of `src/astra-dapp/src/anchorClient.js` and
`src/astra-dapp/src/App.jsx`.

Modelling conventions.

* JavaScript numbers (`Num`) are the integer-valued doubles, the two infinities
  and NaN: every number the program computes is built from `Date.now()`,
  integer constants and the result of `parseInt`, by `+`, `*` and
  `Math.floor(_ / 1000)`.  `+` and `*` round the exact integer result to the
  nearest double, ties to even (`roundDouble`).  The two zeros are one value:
  the program never divides by a zero, and the sum line 63 computes is not
  changed by the sign of a zero period.
* A reading of `Date.now()` is a time value, an integer of magnitude at most
  8.64e15; on time values `Math.floor(now / 1000)` and `now + 86400000` are
  exact, and are written on `Int`.
* `Date.now()` is a clock oracle `clock : Nat → Int`: the k-th call made since
  the start of the session returns `clock k`.  `World.reads` counts the calls.
* `console.log`, `console.error`, `alert` and `e.preventDefault()` append to
  `World.trace`.  `World.calls` is a ghost record of the argument lists with
  which the client's methods are invoked; the program itself never reads it.
* `async`/`await` chains are sequential; a rejected promise is `Except.error`.
* React state setters are applied in order; the value of a state variable
  after a handler is the one written last.
-/

namespace AstraDapp

/-! ## Values -/

/-- A JavaScript number with an integer value (`int n` is the double whose value is
`n`), an infinity, or NaN. -/
inductive Num where
  | int (n : Int)
  | posInf
  | negInf
  | nan
  deriving DecidableEq, Repr

/-- The least magnitude that is beyond the doubles, 2^1024. -/
@[irreducible]
def doubleLimit : Nat := 2 ^ 1024

/-- The magnitude `m` of at least 2^53 rounded to 53 significant bits, ties to
even: the 53 leading bits are kept and the rest is rounded. -/
def roundMagnitude (m : Nat) : Nat :=
  let e := Nat.log2 m - 52
  let q := m / 2 ^ e
  let r := m % 2 ^ e
  let half := 2 ^ (e - 1)
  (if half < r ∨ (r = half ∧ q % 2 = 1) then q + 1 else q) * 2 ^ e

/-- The double nearest to the integer `x`, ties to even: exact below 2^53 in
magnitude; above, rounded to 53 significant bits; a result of magnitude 2^1024 or
more is an infinity. -/
def roundDouble (x : Int) : Num :=
  if -9007199254740992 < x ∧ x < 9007199254740992 then .int x
  else if doubleLimit ≤ roundMagnitude x.natAbs then (if x < 0 then .negInf else .posInf)
  else .int (if x < 0 then -(roundMagnitude x.natAbs : Int) else (roundMagnitude x.natAbs : Int))

/-- The operator `+` on numbers. -/
def Num.add : Num → Num → Num
  | .int a, .int b => roundDouble (a + b)
  | .nan, _ => .nan
  | _, .nan => .nan
  | .posInf, .negInf => .nan
  | .negInf, .posInf => .nan
  | .posInf, _ => .posInf
  | _, .posInf => .posInf
  | .negInf, _ => .negInf
  | _, .negInf => .negInf

/-- The operator `*` on numbers. -/
def Num.mul : Num → Num → Num
  | .int a, .int b => roundDouble (a * b)
  | .nan, _ => .nan
  | _, .nan => .nan
  | .posInf, .int b => if b = 0 then .nan else if 0 < b then .posInf else .negInf
  | .negInf, .int b => if b = 0 then .nan else if 0 < b then .negInf else .posInf
  | .int a, .posInf => if a = 0 then .nan else if 0 < a then .posInf else .negInf
  | .int a, .negInf => if a = 0 then .nan else if 0 < a then .negInf else .posInf
  | .posInf, .posInf => .posInf
  | .posInf, .negInf => .negInf
  | .negInf, .posInf => .negInf
  | .negInf, .negInf => .posInf

/-- The JavaScript values that flow through the client and the component. -/
inductive Value where
  | undefined
  | null
  | bool (b : Bool)
  | num (x : Num)
  | str (s : String)
  | publicKey (base58 : String)
  deriving DecidableEq, Repr

/-- An object literal with data properties, in source order. -/
abbrev Obj := List (String × Value)

/-- Property read `o.k`: the value of the first property named `k`, `undefined` when absent. -/
def getProp : Obj → String → Value
  | [], _ => .undefined
  | (k, v) :: rest, name => if k = name then v else getProp rest name

/-- Positional parameter binding: the i-th argument, `undefined` when fewer were passed. -/
def nthArg : List Value → Nat → Value
  | [], _ => .undefined
  | v :: _, 0 => v
  | _ :: rest, i + 1 => nthArg rest i

/-- Decimal text of a number (`Number.prototype.toString`); the program prints only
time values and vote counts, which are below 1e21, where the text is the plain
decimal one. -/
def Num.toText : Num → String
  | .int n => toString n
  | .posInf => "Infinity"
  | .negInf => "-Infinity"
  | .nan => "NaN"

/-- The result of `v.toString()` for a value that is neither `undefined` nor `null`. -/
def Value.toText : Value → String
  | .undefined => "undefined"
  | .null => "null"
  | .bool true => "true"
  | .bool false => "false"
  | .num x => x.toText
  | .str s => s
  | .publicKey k => k

/-- ToBoolean. -/
def Value.truthy : Value → Bool
  | .undefined => false
  | .null => false
  | .bool b => b
  | .num (.int n) => n != 0
  | .num .posInf => true
  | .num .negInf => true
  | .num .nan => false
  | .str s => s != ""
  | .publicKey _ => true

/-- The expression `v?.toString()`. -/
def optToString : Value → Value
  | .undefined => .undefined
  | .null => .undefined
  | v => .str v.toText

/-- The expression `a || b`. -/
def orElse (a b : Value) : Value := if a.truthy then a else b

/-- ToNumber on the operands whose conversion does not parse text; a string or
object operand is outside the embedding (`none`). -/
def toNumber : Value → Option Num
  | .undefined => some .nan
  | .null => some (.int 0)
  | .bool true => some (.int 1)
  | .bool false => some (.int 0)
  | .num x => some x
  | .str _ => none
  | .publicKey _ => none

/-- WhiteSpace and LineTerminator code points, the ones `String.prototype.trim` removes. -/
def isTrimChar (c : Char) : Bool :=
  let n := c.toNat
  n == 0x09 || n == 0x0A || n == 0x0B || n == 0x0C || n == 0x0D || n == 0x20 ||
  n == 0xA0 || n == 0x1680 || (0x2000 ≤ n && n ≤ 0x200A) || n == 0x2028 ||
  n == 0x2029 || n == 0x202F || n == 0x205F || n == 0x3000 || n == 0xFEFF

/-- The method `String.prototype.trim`. -/
def jsTrim (s : String) : String :=
  ⟨((s.data.dropWhile isTrimChar).reverse.dropWhile isTrimChar).reverse⟩

/-- The test `!s.trim()`: the trimmed string is empty. -/
def blank (s : String) : Bool := (jsTrim s).data.isEmpty

/-- The method `String.prototype.includes`. -/
def includes (s pat : String) : Bool :=
  s.data.tails.any (fun t => pat.data.isPrefixOf t)

/-! ## World -/

/-- An error value; only its `message` is inspected. -/
structure JsError where
  message : String
  deriving DecidableEq, Repr

/-- One entry of `program.account.proposal.all()`. -/
structure ProposalEntry where
  publicKey : Value
  account : Obj
  deriving DecidableEq, Repr

/-- What is passed to `console.log` after the label. -/
inductive Payload where
  | obj (o : Obj)
  | text (s : String)
  | entries (ps : List ProposalEntry)
  deriving DecidableEq, Repr

/-- Observable effects. -/
inductive Event where
  | preventDefault
  | alert (msg : String)
  | consoleLog (label : String) (payload : Payload)
  | consoleError (label : String) (message : String)
  deriving DecidableEq, Repr

/-- An invocation of a client method: its name and the argument list passed. -/
structure Call where
  method : String
  args : List Value
  deriving DecidableEq, Repr

/-- The environment of the page. -/
structure World where
  reads : Nat
  trace : List Event
  calls : List Call
  deriving DecidableEq, Repr

/-- The call `Date.now()`. -/
def World.dateNow (clock : Nat → Int) (w : World) : Int × World :=
  (clock w.reads, { w with reads := w.reads + 1 })

/-- Append an observable effect. -/
def World.emit (w : World) (e : Event) : World :=
  { w with trace := w.trace ++ [e] }

/-- Record a client method invocation. -/
def World.record (w : World) (c : Call) : World :=
  { w with calls := w.calls ++ [c] }

/-! ## anchorClient.js -/

/-- The wallet object; `publicKey` is `null` while no wallet is connected. -/
structure Wallet where
  publicKey : Value
  deriving DecidableEq, Repr

/-- An `async () => ...` function value: run in a world, it resolves or rejects. -/
abbrev Rpc := World → Except JsError String × World

/-- The object returned by `accounts()`: its function-valued properties, by name. -/
abbrev AccountsResult := List (String × Rpc)

/-- Property read on the object returned by `accounts()`. -/
def getMethod : AccountsResult → String → Option Rpc
  | [], _ => none
  | (k, f) :: rest, name => if k = name then some f else getMethod rest name

/-- The object returned by a method of `program.methods`: its single property
`accounts`, a function that is called with one object argument. -/
structure Builder where
  accounts : Obj → AccountsResult

/-- The body of `rpc` inside `createProposal` (anchorClient.js 21-25), closed
over the parameters `title`, `description`, `deadline`. -/
def createProposalRpc (clock : Nat → Int) (title description deadline : Value) : Rpc :=
  fun w =>
    let w1 := w.emit (.consoleLog "Creating proposal:"
      (.obj [("title", title), ("description", description), ("deadline", deadline)]))
    let r := w1.dateNow clock
    (.ok ("mock_signature_" ++ toString r.1), r.2)

/-- The parameters `(title, description, deadline)` of `program.methods.createProposal`
(anchorClient.js 19). -/
structure CreateProposalParams where
  title : Value
  description : Value
  deadline : Value
  deriving DecidableEq, Repr

/-- Binding of an argument list to the parameters of `createProposal`. -/
def bindCreateProposal (args : List Value) : CreateProposalParams :=
  ⟨nthArg args 0, nthArg args 1, nthArg args 2⟩

/-- The method `program.methods.createProposal` (anchorClient.js 19-27):
`(title, description, deadline) => (...)` applied to an argument list. -/
def methodsCreateProposal (clock : Nat → Int) (args : List Value) (w : World) : Builder × World :=
  let p := bindCreateProposal args
  (⟨fun _ => [("rpc", createProposalRpc clock p.title p.description p.deadline)]⟩,
   w.record ⟨"createProposal", args⟩)

/-- The body of `rpc` inside `vote` (anchorClient.js 31-35), closed over the
parameters `proposalId`, `support`. -/
def voteRpc (clock : Nat → Int) (proposalId support : Value) : Rpc :=
  fun w =>
    let w1 := w.emit (.consoleLog "Voting on proposal:"
      (.obj [("proposalId", proposalId), ("support", support)]))
    let r := w1.dateNow clock
    (.ok ("mock_vote_signature_" ++ toString r.1), r.2)

/-- The parameters `(proposalId, support)` of `program.methods.vote` (anchorClient.js 29). -/
structure VoteParams where
  proposalId : Value
  support : Value
  deriving DecidableEq, Repr

/-- Binding of an argument list to the parameters of `vote`. -/
def bindVote (args : List Value) : VoteParams := ⟨nthArg args 0, nthArg args 1⟩

/-- The method `program.methods.vote` (anchorClient.js 29-37):
`(proposalId, support) => (...)` applied to an argument list. -/
def methodsVote (clock : Nat → Int) (args : List Value) (w : World) : Builder × World :=
  let p := bindVote args
  (⟨fun _ => [("rpc", voteRpc clock p.proposalId p.support)]⟩, w.record ⟨"vote", args⟩)

/-- The expression `builder.accounts(o).rpc()`, the way the mock is meant to be
called.  A property that is absent reads as `undefined`, and calling it throws a
TypeError. -/
def callRpc (callee : String) (b : Builder) (o : Obj) (w : World) : Except JsError String × World :=
  match getMethod (b.accounts o) "rpc" with
  | none => (.error ⟨callee ++ ".accounts(...).rpc is not a function"⟩, w)
  | some f => f w

/-- The account object of the single proposal returned by `all()`
(anchorClient.js 48-57), given `wallet.publicKey` and the reading of `Date.now()`. -/
def mockAccount (author : Value) (now : Int) : Obj :=
  [("id", .num (.int 1)),
   ("title", .str "Increase DAO Treasury"),
   ("description", .str "Proposal to increase treasury allocation"),
   ("author", author),
   ("yesVotes", .num (.int 5)),
   ("noVotes", .num (.int 2)),
   ("deadline", .num (.int (now + 86400000))),
   ("executed", .bool false)]

/-- The function `program.account.proposal.all` (anchorClient.js 43-60). -/
def proposalAll (clock : Nat → Int) (wallet : Wallet) (w : World) :
    Except JsError (List ProposalEntry) × World :=
  let r := w.dateNow clock
  (.ok [⟨.publicKey "11111111111111111111111111111111", mockAccount wallet.publicKey r.1⟩], r.2)

/-- The `program` object built by `getAnchorClient(wallet)` (anchorClient.js 8-66). -/
structure Program where
  createProposal : List Value → World → Builder × World
  vote : List Value → World → Builder × World
  all : World → Except JsError (List ProposalEntry) × World

/-- The function `getAnchorClient`; the `Connection` and `AnchorProvider` it
constructs have no effect that the program observes. -/
def getAnchorClient (clock : Nat → Int) (wallet : Wallet) : Program :=
  ⟨methodsCreateProposal clock, methodsVote clock, proposalAll clock wallet⟩

/-! ## App.jsx: state and handlers -/

/-- The state variable `formData` (App.jsx 15-19); `deadline` holds the voting
period in hours, the result of `parseInt` on the input's text. -/
structure FormData where
  title : String
  description : String
  deadline : Num
  deriving DecidableEq, Repr

/-- The form as `useState` initialises it and as line 84 resets it. -/
def initialFormData : FormData := ⟨"", "", .int 72⟩

/-- The component's state: the wallet hooks and the state variables the
handlers read or write. -/
structure App where
  connected : Bool
  wallet : Wallet
  proposals : List ProposalEntry
  loading : Bool
  formData : FormData
  deriving DecidableEq, Repr

/-- Component state together with the page's environment. -/
structure Sys where
  app : App
  world : World
  deriving DecidableEq, Repr

/-- Append an observable effect. -/
def Sys.emit (s : Sys) (e : Event) : Sys := { s with world := s.world.emit e }

/-- The setter `setLoading`. -/
def Sys.setLoading (s : Sys) (b : Bool) : Sys := { s with app := { s.app with loading := b } }

/-- The function `loadProposals` (App.jsx 37-46). -/
def loadProposals (clock : Nat → Int) (s : Sys) : Sys :=
  let program := getAnchorClient clock s.app.wallet
  let r := program.all s.world
  match r.1 with
  | .ok ps =>
      { app := { s.app with proposals := ps },
        world := r.2.emit (.consoleLog "Loaded proposals:" (.entries ps)) }
  | .error e => { s with world := r.2.emit (.consoleError "Error loading proposals:" e.message) }

/-- The expression of App.jsx 65-78:
`program.methods.createProposal(id, title, description, deadline).accounts(...).signers([...]).rpc()`.
A property that is absent reads as `undefined`, and calling it throws a TypeError;
a property that is present is an `async` function, whose result (a promise) has no `rpc`. -/
def createProposalChain (program : Program) (id : Int) (form : FormData) (deadline : Num)
    (proposalKey : Value) (wallet : Wallet) (w : World) : Except JsError String × World :=
  let r := program.createProposal
    [.num (.int id), .str form.title, .str form.description, .num deadline] w
  let acc := r.1.accounts
    [("proposal", proposalKey), ("user", wallet.publicKey),
     ("systemProgram", .publicKey "11111111111111111111111111111111")]
  match getMethod acc "signers" with
  | none =>
      (.error ⟨"program.methods.createProposal(...).accounts(...).signers is not a function"⟩, r.2)
  | some f =>
      (.error ⟨"program.methods.createProposal(...).accounts(...).signers(...).rpc is not a function"⟩,
       (f r.2).2)

/-- The expression of App.jsx 63, `Math.floor(Date.now() / 1000) + (formData.deadline * 60 * 60)`,
at the reading `now` of `Date.now()`, a time value. -/
def computeDeadline (now : Int) (hours : Num) : Num :=
  Num.add (.int (now / 1000)) (Num.mul (Num.mul hours (.int 60)) (.int 60))

/-- The `catch` block of `createProposal` (App.jsx 87-95). -/
def createProposalCatch (e : JsError) (w : World) : World :=
  let w1 := w.emit (.consoleError "Error creating proposal:" e.message)
  if includes e.message "User rejected" then w1.emit (.alert "Transaction was cancelled")
  else if includes e.message "insufficient" then w1.emit (.alert "Insufficient SOL for transaction")
  else w1.emit (.alert "Failed to create proposal. Please try again.")

/-- The handler `createProposal` (App.jsx 48-99).  `proposalKey` is the public key
of the keypair that `Keypair.generate()` returns. -/
def createProposal (clock : Nat → Int) (proposalKey : Value) (s : Sys) : Sys :=
  let s0 := s.emit .preventDefault
  if !s0.app.connected then s0
  else if blank s0.app.formData.title || blank s0.app.formData.description then
    s0.emit (.alert "Please fill in all fields")
  else
    let s1 := s0.setLoading true
    let program := getAnchorClient clock s1.app.wallet
    let id := s1.world.dateNow clock
    let t := id.2.dateNow clock
    let deadline := computeDeadline t.1 s1.app.formData.deadline
    let r := createProposalChain program id.1 s1.app.formData deadline proposalKey s1.app.wallet t.2
    let s2 : Sys :=
      match r.1 with
      | .ok tx =>
          let w := (r.2.emit (.consoleLog "Proposal created! Signature:" (.text tx))).emit
            (.alert "✅ Proposal created on-chain!")
          loadProposals clock { app := { s1.app with formData := initialFormData }, world := w }
      | .error e => { s1 with world := createProposalCatch e r.2 }
    s2.setLoading false

/-- The expression of App.jsx 108-114:
`program.methods.vote(voteType).accounts(...).rpc()`. -/
def voteChain (program : Program) (proposalPubkey : Value) (voteType : Bool) (wallet : Wallet)
    (w : World) : Except JsError String × World :=
  let r := program.vote [.bool voteType] w
  callRpc "program.methods.vote(...)" r.1
    [("proposal", proposalPubkey), ("voter", wallet.publicKey)] r.2

/-- The `catch` block of `voteOnProposal` (App.jsx 120-128). -/
def voteCatch (e : JsError) (w : World) : World :=
  let w1 := w.emit (.consoleError "Error voting:" e.message)
  if includes e.message "User rejected" then w1.emit (.alert "Transaction was cancelled")
  else if includes e.message "already voted" then
    w1.emit (.alert "You have already voted on this proposal")
  else w1.emit (.alert "Failed to submit vote. Please try again.")

/-- The handler `voteOnProposal` (App.jsx 101-132). -/
def voteOnProposal (clock : Nat → Int) (proposalPubkey : Value) (voteType : Bool) (s : Sys) : Sys :=
  if !s.app.connected then s
  else
    let s1 := s.setLoading true
    let program := getAnchorClient clock s1.app.wallet
    let r := voteChain program proposalPubkey voteType s1.app.wallet s1.world
    let s2 : Sys :=
      match r.1 with
      | .ok tx =>
          let w := (r.2.emit (.consoleLog "Vote cast! Signature:" (.text tx))).emit
            (.alert "✅ Vote submitted!")
          loadProposals clock { s1 with world := w }
      | .error e => { s1 with world := voteCatch e r.2 }
    s2.setLoading false

/-! ## App.jsx: the proposal list -/

/-- The time value of a `Date` object. -/
inductive DateValue where
  | ms (t : Int)
  | invalid
  deriving DecidableEq, Repr

/-- The constructor `new Date(x)` on a number: NaN, an infinity or a value outside
±8.64e15 ms gives an invalid date. -/
def newDate : Num → DateValue
  | .nan => .invalid
  | .posInf => .invalid
  | .negInf => .invalid
  | .int t => if -8640000000000000 ≤ t ∧ t ≤ 8640000000000000 then .ms t else .invalid

/-- The text React puts in the page for a child expression. -/
def childText : Value → String
  | .str s => s
  | .num x => x.toText
  | _ => ""

/-- What one `proposal-item` shows (App.jsx 187-194): the title, the description,
the texts after `For:` and `Against:`, and the date object whose local date
string follows `Deadline:` (`none` when the operand of `* 1000` is outside the
embedding, see `toNumber`). -/
structure RenderedProposal where
  title : String
  description : String
  votesFor : String
  votesAgainst : String
  deadline : Option DateValue
  deriving DecidableEq, Repr

/-- The body of `proposals.map` (App.jsx 186-211), the vote buttons apart. -/
def renderProposal (prop : ProposalEntry) : RenderedProposal :=
  { title := childText (getProp prop.account "title")
    description := childText (getProp prop.account "description")
    votesFor := childText (orElse (optToString (getProp prop.account "votesFor")) (.num (.int 0)))
    votesAgainst :=
      childText (orElse (optToString (getProp prop.account "votesAgainst")) (.num (.int 0)))
    deadline :=
      (toNumber (getProp prop.account "deadline")).map (fun d => newDate (d.mul (.int 1000))) }

/-- The `proposals-list` block (App.jsx 183-214): shown when the wallet is
connected and there is at least one proposal. -/
def renderProposals (a : App) : List RenderedProposal :=
  if a.connected && a.proposals.length > 0 then a.proposals.map renderProposal else []

/-- The click handlers of the two vote buttons of a proposal (App.jsx 196-209). -/
def clickVote (clock : Nat → Int) (prop : ProposalEntry) (yes : Bool) (s : Sys) : Sys :=
  voteOnProposal clock prop.publicKey yes s

/-! ## Vocabulary of the claims -/

/-- The chain `program.methods.createProposal(...).accounts(o).rpc()`: a submission
made on the client directly, through the three methods the mock defines. -/
def submitProposal (program : Program) (args : List Value) (o : Obj) (w : World) :
    Except JsError String × World :=
  let b := program.createProposal args w
  callRpc "program.methods.createProposal(...)" b.1 o b.2

/-- The chain `program.methods.vote(...).accounts(o).rpc()` on an argument list. -/
def submitVote (program : Program) (args : List Value) (o : Obj) (w : World) :
    Except JsError String × World :=
  let b := program.vote args w
  callRpc "program.methods.vote(...)" b.1 o b.2

/-- A call made on the client. -/
inductive ClientOp where
  | createProposal (args : List Value) (o : Obj)
  | vote (args : List Value) (o : Obj)
  | all
  deriving DecidableEq, Repr

/-- The world after one call on the client. -/
def runOp (program : Program) : ClientOp → World → World
  | .createProposal args o, w => (submitProposal program args o w).2
  | .vote args o, w => (submitVote program args o w).2
  | .all, w => (program.all w).2

/-- The world after a sequence of calls on the client, first call first. -/
def runOps (program : Program) : List ClientOp → World → World
  | [], w => w
  | op :: rest, w => runOps program rest (runOp program op w)

/-- The test of App.jsx 124 on a rejected submission: the error is the one the
client reports as 'already voted'. -/
def failsAlreadyVoted (r : Except JsError String) : Bool :=
  match r with
  | .ok _ => false
  | .error e => includes e.message "already voted"

/-- Whether a stored record carries the submitted id, title, description and deadline. -/
def matchesSubmission (id title description deadline : Value) (e : ProposalEntry) : Bool :=
  getProp e.account "id" == id && getProp e.account "title" == title &&
    getProp e.account "description" == description && getProp e.account "deadline" == deadline

/-- Whether a submitted deadline is a number strictly greater than `seconds`
(the comparison `seconds < deadline` on numbers). -/
def laterThan (deadline : Value) (seconds : Int) : Bool :=
  match deadline with
  | .num (.int d) => decide (seconds < d)
  | .num .posInf => true
  | _ => false

/-- The number is at least the integer `c`. -/
def Num.atLeast : Num → Int → Prop
  | .int y, c => c ≤ y
  | .posInf, _ => True
  | _, _ => False

/-- The number is at most the integer `c`. -/
def Num.atMost : Num → Int → Prop
  | .int y, c => y ≤ c
  | .negInf, _ => True
  | _, _ => False

/-! ## Concrete inputs -/

/-- A connected wallet. -/
def demoWallet : Wallet := ⟨.publicKey "7xKXtg2CW87d97TXJSDpbD5jBkheTqA83TZRuJosgAsU"⟩

/-- A clock that advances one millisecond per reading. -/
def demoClock : Nat → Int := fun k => 1700000000000 + k

/-- A clock that stays within one millisecond. -/
def frozenClock : Nat → Int := fun _ => 1700000000000

/-- A fresh page. -/
def demoWorld : World := ⟨0, [], []⟩

/-- A connected session with the given form contents. -/
def demoSys (form : FormData) : Sys := ⟨⟨true, demoWallet, [], false, form⟩, demoWorld⟩

/-- The public key of a generated proposal keypair. -/
def demoKey : Value := .publicKey "4Nd1mBQtrMJVYVfKf2PJy9NZUZdTAsp7D4xWLs4gDB4T"

/-- The public key of the mock proposal. -/
def mockKey : Value := .publicKey "11111111111111111111111111111111"

/-! ## What the handlers compute -/

/-- The vote chain on the mock client: it resolves, after one log line, one clock
reading and one recorded call. -/
theorem voteChain_eq (clock : Nat → Int) (wallet : Wallet) (pk : Value) (v : Bool) (w : World) :
    voteChain (getAnchorClient clock wallet) pk v wallet w =
      (.ok ("mock_vote_signature_" ++ toString (clock w.reads)),
       { reads := w.reads + 1,
         trace := w.trace ++ [.consoleLog "Voting on proposal:"
           (.obj [("proposalId", .bool v), ("support", .undefined)])],
         calls := w.calls ++ [⟨"vote", [.bool v]⟩] }) := by
  simp [voteChain, getAnchorClient, methodsVote, callRpc, getMethod, voteRpc, bindVote, nthArg,
    World.emit, World.record, World.dateNow]

/-- The chain of App.jsx 65-78 on the mock client: the object returned by `accounts()`
has no `signers`, so the chain throws after the client's createProposal was called. -/
theorem createProposalChain_eq (clock : Nat → Int) (wallet : Wallet) (id : Int) (form : FormData)
    (deadline : Num) (key : Value) (w : World) :
    createProposalChain (getAnchorClient clock wallet) id form deadline key wallet w =
      (.error ⟨"program.methods.createProposal(...).accounts(...).signers is not a function"⟩,
       { w with calls := w.calls ++
           [⟨"createProposal", [.num (.int id), .str form.title, .str form.description, .num deadline]⟩] }) := by
  simp [createProposalChain, getAnchorClient, methodsCreateProposal, getMethod, World.record]

/-- The `catch` block of `createProposal` on that TypeError: the generic failure alert. -/
theorem createProposalCatch_typeError (w : World) :
    createProposalCatch
        ⟨"program.methods.createProposal(...).accounts(...).signers is not a function"⟩ w =
      { w with trace := w.trace ++
          [.consoleError "Error creating proposal:"
             "program.methods.createProposal(...).accounts(...).signers is not a function",
           .alert "Failed to create proposal. Please try again."] } := by
  have h1 : includes "program.methods.createProposal(...).accounts(...).signers is not a function"
      "User rejected" = false := by decide
  have h2 : includes "program.methods.createProposal(...).accounts(...).signers is not a function"
      "insufficient" = false := by decide
  simp [createProposalCatch, h1, h2, World.emit]

/-- The function `loadProposals` on the mock client: one clock reading, the single mock
record stored in `proposals`, one log line. -/
theorem loadProposals_eq (clock : Nat → Int) (s : Sys) :
    loadProposals clock s =
      { app := { s.app with proposals :=
          [⟨.publicKey "11111111111111111111111111111111",
            mockAccount s.app.wallet.publicKey (clock s.world.reads)⟩] },
        world :=
          { reads := s.world.reads + 1,
            trace := s.world.trace ++ [.consoleLog "Loaded proposals:" (.entries
              [⟨.publicKey "11111111111111111111111111111111",
                mockAccount s.app.wallet.publicKey (clock s.world.reads)⟩])],
            calls := s.world.calls } } := by
  simp [loadProposals, getAnchorClient, proposalAll, World.dateNow, World.emit]

/-- The test `!s.trim()` holds exactly when the trimmed string is the empty string. -/
theorem blank_iff (s : String) : blank s = true ↔ jsTrim s = "" := by
  unfold blank
  rw [List.isEmpty_iff]
  constructor
  · intro h
    exact String.ext h
  · intro h
    rw [h]

/-- Without a connected wallet `createProposal` only prevents the default action. -/
theorem createProposal_disconnected (clock : Nat → Int) (key : Value) (s : Sys)
    (hc : s.app.connected = false) :
    createProposal clock key s = s.emit .preventDefault := by
  simp [createProposal, Sys.emit, hc]

/-- With a blank title or description `createProposal` alerts and returns. -/
theorem createProposal_blank (clock : Nat → Int) (key : Value) (s : Sys)
    (hc : s.app.connected = true)
    (hb : (blank s.app.formData.title || blank s.app.formData.description) = true) :
    createProposal clock key s =
      (s.emit .preventDefault).emit (.alert "Please fill in all fields") := by
  simp only [createProposal, Sys.emit, hc, hb]
  simp

/-- With a connected wallet and non-blank fields `createProposal` reads the clock twice,
calls the client's createProposal once and ends in its `catch` block. -/
theorem createProposal_submits (clock : Nat → Int) (key : Value) (s : Sys)
    (hc : s.app.connected = true)
    (hb : (blank s.app.formData.title || blank s.app.formData.description) = false) :
    createProposal clock key s =
      { app := { s.app with loading := false },
        world :=
          { reads := s.world.reads + 2,
            trace := s.world.trace ++
              [.preventDefault,
               .consoleError "Error creating proposal:"
                 "program.methods.createProposal(...).accounts(...).signers is not a function",
               .alert "Failed to create proposal. Please try again."],
            calls := s.world.calls ++
              [⟨"createProposal",
                [.num (.int (clock s.world.reads)), .str s.app.formData.title,
                 .str s.app.formData.description,
                 .num (computeDeadline (clock (s.world.reads + 1)) s.app.formData.deadline)]⟩] } } := by
  simp only [createProposal, Sys.emit, Sys.setLoading, hc, hb, createProposalChain_eq,
    createProposalCatch_typeError]
  simp [World.emit, World.dateNow]

/-- With a connected wallet `voteOnProposal` submits the vote and reloads the proposals. -/
theorem voteOnProposal_connected (clock : Nat → Int) (pk : Value) (v : Bool) (s : Sys)
    (hc : s.app.connected = true) :
    voteOnProposal clock pk v s =
      { app := { s.app with
          proposals := [⟨.publicKey "11111111111111111111111111111111",
            mockAccount s.app.wallet.publicKey (clock (s.world.reads + 1))⟩],
          loading := false },
        world :=
          { reads := s.world.reads + 2,
            trace := s.world.trace ++
              [.consoleLog "Voting on proposal:"
                 (.obj [("proposalId", .bool v), ("support", .undefined)]),
               .consoleLog "Vote cast! Signature:"
                 (.text ("mock_vote_signature_" ++ toString (clock s.world.reads))),
               .alert "✅ Vote submitted!",
               .consoleLog "Loaded proposals:" (.entries
                 [⟨.publicKey "11111111111111111111111111111111",
                   mockAccount s.app.wallet.publicKey (clock (s.world.reads + 1))⟩])],
            calls := s.world.calls ++ [⟨"vote", [.bool v]⟩] } } := by
  simp only [voteOnProposal, Sys.setLoading, hc, voteChain_eq, loadProposals_eq]
  simp [World.emit]

/-! ## C1 -/

/-- C1, as stated, fails: on the mock client a yes vote followed by a no vote by the
same wallet on the same proposal both resolve with a signature; the second is not
rejected, and the page alerts that the vote was submitted. -/
theorem second_vote_is_accepted :
    (voteChain (getAnchorClient demoClock demoWallet) mockKey true demoWallet demoWorld).1 =
        .ok "mock_vote_signature_1700000000000" ∧
      (voteChain (getAnchorClient demoClock demoWallet) mockKey false demoWallet
        (voteChain (getAnchorClient demoClock demoWallet) mockKey true demoWallet demoWorld).2).1 =
        .ok "mock_vote_signature_1700000000001" ∧
      failsAlreadyVoted
        (voteChain (getAnchorClient demoClock demoWallet) mockKey false demoWallet
          (voteChain (getAnchorClient demoClock demoWallet) mockKey true demoWallet demoWorld).2).1 =
        false ∧
      Event.alert "You have already voted on this proposal" ∉
        (voteOnProposal demoClock mockKey false
          (voteOnProposal demoClock mockKey true (demoSys initialFormData))).world.trace ∧
      ((voteOnProposal demoClock mockKey false
          (voteOnProposal demoClock mockKey true (demoSys initialFormData))).world.trace.filter
        (fun e => e == .alert "✅ Vote submitted!")).length = 2 := by
  refine ⟨rfl, rfl, rfl, ?_, ?_⟩
  · decide
  · decide

/-- C1, amended: every vote on the mock client resolves with the signature
'mock_vote_signature_' + Date.now(), a second vote by the same voter on the same
proposal included, whatever the two support values; no vote fails with AlreadyVoted,
and `voteOnProposal` on a connected wallet always ends with the alert that the vote
was submitted. -/
theorem vote_always_accepted (clock : Nat → Int) (pk : Value) (v1 v2 : Bool) (s : Sys) :
    (voteChain (getAnchorClient clock s.app.wallet) pk v1 s.app.wallet s.world).1 =
        .ok ("mock_vote_signature_" ++ toString (clock s.world.reads)) ∧
      (voteChain (getAnchorClient clock s.app.wallet) pk v2 s.app.wallet
        (voteChain (getAnchorClient clock s.app.wallet) pk v1 s.app.wallet s.world).2).1 =
        .ok ("mock_vote_signature_" ++ toString (clock (s.world.reads + 1))) ∧
      failsAlreadyVoted
        (voteChain (getAnchorClient clock s.app.wallet) pk v2 s.app.wallet
          (voteChain (getAnchorClient clock s.app.wallet) pk v1 s.app.wallet s.world).2).1 =
        false ∧
      (voteOnProposal clock pk v2 (voteOnProposal clock pk v1 s)).world.trace =
        (voteOnProposal clock pk v1 s).world.trace ++
          (if s.app.connected then
            [.consoleLog "Voting on proposal:"
               (.obj [("proposalId", .bool v2), ("support", .undefined)]),
             .consoleLog "Vote cast! Signature:"
               (.text ("mock_vote_signature_" ++ toString (clock (s.world.reads + 2)))),
             .alert "✅ Vote submitted!",
             .consoleLog "Loaded proposals:" (.entries
               [⟨.publicKey "11111111111111111111111111111111",
                 mockAccount s.app.wallet.publicKey (clock (s.world.reads + 3))⟩])]
          else []) := by
  refine ⟨?_, ?_, ?_, ?_⟩
  · rw [voteChain_eq]
  · rw [voteChain_eq, voteChain_eq]
  · rw [voteChain_eq, voteChain_eq]; rfl
  · cases hc : s.app.connected
    · simp [voteOnProposal, hc]
    · have h1 : (voteOnProposal clock pk v1 s).app.connected = true := by
        rw [voteOnProposal_connected clock pk v1 s hc]; exact hc
      rw [voteOnProposal_connected clock pk v2 _ h1, voteOnProposal_connected clock pk v1 s hc]
      simp

/-! ## C2 -/

/-- C2, as stated, fails: a submission of id 7, title 'A', description 'B' and deadline
1700259200 resolves with a signature, and the query made right after it returns one
record, which matches none of the submitted values. -/
theorem created_proposal_not_returned :
    (submitProposal (getAnchorClient demoClock demoWallet)
        [.num (.int 7), .str "A", .str "B", .num (.int 1700259200)] [] demoWorld).1 =
        .ok "mock_signature_1700000000000" ∧
      ((getAnchorClient demoClock demoWallet).all
        (submitProposal (getAnchorClient demoClock demoWallet)
          [.num (.int 7), .str "A", .str "B", .num (.int 1700259200)] [] demoWorld).2).1 =
        .ok [⟨mockKey, mockAccount demoWallet.publicKey 1700000000001⟩] ∧
      [(⟨mockKey, mockAccount demoWallet.publicKey 1700000000001⟩ : ProposalEntry)].any
        (matchesSubmission (.num (.int 7)) (.str "A") (.str "B") (.num (.int 1700259200))) =
        false := by
  refine ⟨rfl, rfl, ?_⟩
  decide

/-- C2, amended: every createProposal submission on the mock client resolves with
'mock_signature_' + Date.now(), and the query made right after it returns exactly the
one fixed record (id 1, title 'Increase DAO Treasury', description 'Proposal to
increase treasury allocation', deadline Date.now() + 86400000), whatever was submitted. -/
theorem query_after_create_is_mock (clock : Nat → Int) (wallet : Wallet) (args : List Value)
    (o : Obj) (w : World) :
    (submitProposal (getAnchorClient clock wallet) args o w).1 =
        .ok ("mock_signature_" ++ toString (clock w.reads)) ∧
      ((getAnchorClient clock wallet).all
        (submitProposal (getAnchorClient clock wallet) args o w).2).1 =
        .ok [⟨.publicKey "11111111111111111111111111111111",
              [("id", .num (.int 1)),
               ("title", .str "Increase DAO Treasury"),
               ("description", .str "Proposal to increase treasury allocation"),
               ("author", wallet.publicKey),
               ("yesVotes", .num (.int 5)),
               ("noVotes", .num (.int 2)),
               ("deadline", .num (.int (clock (w.reads + 1) + 86400000))),
               ("executed", .bool false)]⟩] := by
  simp [submitProposal, getAnchorClient, methodsCreateProposal, callRpc, getMethod,
    createProposalRpc, proposalAll, mockAccount, World.emit, World.record, World.dateNow]

/-! ## Rounding and the deadline of line 63 -/

/-- Below 2^53 in magnitude an integer is a double. -/
theorem roundDouble_exact (x : Int) (h1 : -9007199254740992 < x) (h2 : x < 9007199254740992) :
    roundDouble x = .int x := by
  unfold roundDouble
  rw [if_pos ⟨h1, h2⟩]

/-- A magnitude of at least 2^53 rounds to at least 2^53. -/
theorem roundMagnitude_ge (m : Nat) (hm : 9007199254740992 ≤ m) :
    9007199254740992 ≤ roundMagnitude m := by
  have hm0 : m ≠ 0 := by omega
  have hlog : 53 ≤ Nat.log2 m := by
    rw [Nat.le_log2 hm0]
    exact hm
  have hpow : 2 ^ Nat.log2 m ≤ m := Nat.log2_self_le hm0
  have hsplit : 2 ^ Nat.log2 m = 2 ^ 52 * 2 ^ (Nat.log2 m - 52) := by
    rw [← pow_add]
    congr 1
    omega
  have hpos : 0 < 2 ^ (Nat.log2 m - 52) := pow_pos (by decide) _
  have hq52 : 2 ^ 52 ≤ m / 2 ^ (Nat.log2 m - 52) := by
    rw [Nat.le_div_iff_mul_le hpos, ← hsplit]
    exact hpow
  have he : 2 ≤ 2 ^ (Nat.log2 m - 52) := by
    calc 2 = 2 ^ 1 := by norm_num
      _ ≤ 2 ^ (Nat.log2 m - 52) := Nat.pow_le_pow_right (by decide) (by omega)
  unfold roundMagnitude
  calc 9007199254740992 = 2 ^ 52 * 2 := by norm_num
    _ ≤ _ := Nat.mul_le_mul (le_trans hq52 (by split <;> omega)) he

/-- Rounding an integer of at least 2^53 gives at least 2^53. -/
theorem roundDouble_atLeast_big (x : Int) (h : 9007199254740992 ≤ x) :
    (roundDouble x).atLeast 9007199254740992 := by
  have hm : 9007199254740992 ≤ roundMagnitude x.natAbs := roundMagnitude_ge _ (by omega)
  have hx : ¬ x < 0 := by omega
  unfold roundDouble
  rw [if_neg (by omega), if_neg hx, if_neg hx]
  rcases Classical.em (doubleLimit ≤ roundMagnitude x.natAbs) with hv | hv
  · rw [if_pos hv]
    trivial
  · rw [if_neg hv]
    show (9007199254740992 : Int) ≤ _
    exact_mod_cast hm

/-- Rounding an integer of at most -2^53 gives at most -2^53. -/
theorem roundDouble_atMost_big (x : Int) (h : x ≤ -9007199254740992) :
    (roundDouble x).atMost (-9007199254740992) := by
  have hm : 9007199254740992 ≤ roundMagnitude x.natAbs := roundMagnitude_ge _ (by omega)
  have hx : x < 0 := by omega
  unfold roundDouble
  rw [if_neg (by omega), if_pos hx, if_pos hx]
  rcases Classical.em (doubleLimit ≤ roundMagnitude x.natAbs) with hv | hv
  · rw [if_pos hv]
    trivial
  · rw [if_neg hv]
    show _ ≤ (-9007199254740992 : Int)
    have h2 : (9007199254740992 : Int) ≤ (roundMagnitude x.natAbs : Int) := by exact_mod_cast hm
    omega

/-- Rounding keeps an integer above a double below it. -/
theorem roundDouble_atLeast (x c : Int) (h : c ≤ x) (h1 : -9007199254740992 < c)
    (h2 : c ≤ 9007199254740992) : (roundDouble x).atLeast c := by
  by_cases hx : x < 9007199254740992
  · rw [roundDouble_exact x (by omega) hx]
    exact h
  · have := roundDouble_atLeast_big x (by omega)
    cases hr : roundDouble x with
    | int y => rw [hr] at this; exact le_trans h2 this
    | posInf => trivial
    | negInf => rw [hr] at this; exact this
    | nan => rw [hr] at this; exact this

/-- Rounding keeps an integer below a double above it. -/
theorem roundDouble_atMost (x c : Int) (h : x ≤ c) (h1 : -9007199254740992 ≤ c)
    (h2 : c < 9007199254740992) : (roundDouble x).atMost c := by
  by_cases hx : -9007199254740992 < x
  · rw [roundDouble_exact x hx (by omega)]
    exact h
  · have := roundDouble_atMost_big x (by omega)
    cases hr : roundDouble x with
    | int y => rw [hr] at this; exact le_trans this h1
    | posInf => rw [hr] at this; exact this
    | negInf => trivial
    | nan => rw [hr] at this; exact this

/-- Multiplying a number of at least `a ≥ 0` by 60 gives at least `60 a`. -/
theorem mul60_atLeast (n : Num) (a : Int) (h : n.atLeast a) (h0 : 0 ≤ a)
    (h1 : a * 60 ≤ 9007199254740992) : (Num.mul n (.int 60)).atLeast (a * 60) := by
  cases n with
  | int y =>
    have hy : a ≤ y := h
    exact roundDouble_atLeast (y * 60) (a * 60) (by omega) (by omega) h1
  | posInf => trivial
  | negInf => exact h
  | nan => exact h

/-- Multiplying a number of at most 0 by 60 gives at most 0. -/
theorem mul60_atMost (n : Num) (h : n.atMost 0) : (Num.mul n (.int 60)).atMost 0 := by
  cases n with
  | int y =>
    have hy : y ≤ 0 := h
    exact roundDouble_atMost (y * 60) 0 (by omega) (by omega) (by omega)
  | posInf => exact h
  | negInf => trivial
  | nan => exact h

/-- Adding a number of at least `a` to the double `f` gives at least `f + a`. -/
theorem add_atLeast (f : Int) (n : Num) (a : Int) (h : n.atLeast a)
    (h1 : -9007199254740992 < f + a) (h2 : f + a ≤ 9007199254740992) :
    (Num.add (.int f) n).atLeast (f + a) := by
  cases n with
  | int y =>
    have hy : a ≤ y := h
    exact roundDouble_atLeast (f + y) (f + a) (by omega) h1 h2
  | posInf => trivial
  | negInf => exact h
  | nan => exact h

/-- Adding a number of at most `a` to the double `f` gives at most `f + a`. -/
theorem add_atMost (f : Int) (n : Num) (a : Int) (h : n.atMost a)
    (h1 : -9007199254740992 ≤ f + a) (h2 : f + a < 9007199254740992) :
    (Num.add (.int f) n).atMost (f + a) := by
  cases n with
  | int y =>
    have hy : y ≤ a := h
    exact roundDouble_atMost (f + y) (f + a) (by omega) h1 h2
  | posInf => exact h
  | negInf => trivial
  | nan => exact h

/-- A number of at least `f + 1` is later than `f`. -/
theorem laterThan_of_atLeast (d : Num) (f : Int) (h : d.atLeast (f + 1)) :
    laterThan (.num d) f = true := by
  cases d with
  | int y =>
    have hy : f + 1 ≤ y := h
    simp only [laterThan, decide_eq_true_eq]
    omega
  | posInf => rfl
  | negInf => exact absurd h id
  | nan => exact absurd h id

/-- A number of at most `f` is not later than `f`. -/
theorem not_laterThan_of_atMost (d : Num) (f : Int) (h : d.atMost f) :
    laterThan (.num d) f = false := by
  cases d with
  | int y =>
    have hy : y ≤ f := h
    simp only [laterThan, decide_eq_false_iff_not]
    omega
  | posInf => exact absurd h id
  | negInf => rfl
  | nan => rfl

/-- For a period of magnitude at most 10^12 hours, line 63 computes
`floor(now/1000) + period*3600` exactly. -/
theorem computeDeadline_exact (now p : Int) (h1 : -8640000000000000 ≤ now)
    (h2 : now ≤ 8640000000000000) (hp1 : -1000000000000 ≤ p) (hp2 : p ≤ 1000000000000) :
    computeDeadline now (.int p) = .int (now / 1000 + p * 3600) := by
  simp only [computeDeadline, Num.mul, Num.add]
  rw [roundDouble_exact (p * 60) (by omega) (by omega)]
  simp only [Num.mul]
  rw [roundDouble_exact (p * 60 * 60) (by omega) (by omega)]
  simp only [Num.add]
  rw [roundDouble_exact _ (by omega) (by omega)]
  congr 1
  omega

/-- The deadline of line 63 is later than the creation time in seconds exactly for
a period that is a number of at least 1. -/
theorem computeDeadline_later_iff (now : Int) (period : Num) (h1 : -8640000000000000 ≤ now)
    (h2 : now ≤ 8640000000000000) :
    laterThan (.num (computeDeadline now period)) (now / 1000) = true ↔
      (period = .posInf ∨ ∃ p : Int, period = .int p ∧ 1 ≤ p) := by
  cases period with
  | nan => simp [computeDeadline, Num.mul, Num.add, laterThan]
  | posInf => simp [computeDeadline, Num.mul, Num.add, laterThan]
  | negInf => simp [computeDeadline, Num.mul, Num.add, laterThan]
  | int p =>
    by_cases hp : 1 ≤ p
    · have a1 : (Num.mul (.int p) (.int 60)).atLeast (1 * 60) :=
        mul60_atLeast (.int p) 1 hp (by omega) (by omega)
      have a2 : (Num.mul (Num.mul (.int p) (.int 60)) (.int 60)).atLeast (1 * 60 * 60) :=
        mul60_atLeast _ (1 * 60) a1 (by omega) (by omega)
      have a3 := add_atLeast (now / 1000) _ (1 * 60 * 60) a2 (by omega) (by omega)
      have a4 : (computeDeadline now (.int p)).atLeast (now / 1000 + 1) := by
        unfold computeDeadline
        cases hd : Num.add (.int (now / 1000)) (Num.mul (Num.mul (.int p) (.int 60)) (.int 60)) with
        | int y =>
          rw [hd] at a3
          have hy : now / 1000 + 1 * 60 * 60 ≤ y := a3
          show now / 1000 + 1 ≤ y
          omega
        | posInf => trivial
        | negInf => rw [hd] at a3; exact a3
        | nan => rw [hd] at a3; exact a3
      rw [laterThan_of_atLeast _ _ a4]
      simp only [true_iff]
      exact Or.inr ⟨p, rfl, hp⟩
    · have b1 : (Num.mul (.int p) (.int 60)).atMost 0 :=
        mul60_atMost (.int p) (show p ≤ 0 by omega)
      have b2 : (Num.mul (Num.mul (.int p) (.int 60)) (.int 60)).atMost 0 := mul60_atMost _ b1
      have b3 := add_atMost (now / 1000) _ 0 b2 (by omega) (by omega)
      rw [add_zero] at b3
      have b4 : laterThan (.num (computeDeadline now (.int p))) (now / 1000) = false :=
        not_laterThan_of_atMost _ _ b3
      rw [b4]
      simp only [Bool.false_eq_true, false_iff]
      rintro (h | ⟨q, hq, hq1⟩)
      · cases h
      · cases hq
        exact hp hq1

/-! ## C3 -/

/-- C3, as stated, fails: with the period field emptied, so that `formData.deadline`
is the NaN that `parseInt` returns, the handler still calls the client's
createProposal, with the deadline NaN, which is not later than the creation time in
seconds; the handler has no InvalidDeadline rejection. -/
theorem empty_period_is_submitted :
    (createProposal demoClock demoKey (demoSys ⟨"A", "B", .nan⟩)).world.calls =
        [⟨"createProposal",
          [.num (.int 1700000000000), .str "A", .str "B", .num .nan]⟩] ∧
      demoClock 1 / 1000 = 1700000000 ∧
      laterThan (.num .nan) (demoClock 1 / 1000) = false := by
  decide

/-- C3, amended: `createProposal` makes no check of the deadline and rejects no voting
period: whenever the wallet is connected and title and description are non-blank it
calls the client with the deadline that line 63 computes at the reading `now` (a time
value), which is `floor(now/1000) + period*3600` for a period of magnitude up to
10^12 hours and NaN for the NaN of an emptied period field; that deadline is strictly
greater than the creation time in seconds exactly when the period is a number of at
least 1 (the range the form's input allows, or above it). -/
theorem createProposal_deadline_unchecked (clock : Nat → Int) (key : Value) (s : Sys)
    (hc : s.app.connected = true) (ht : jsTrim s.app.formData.title ≠ "")
    (hd : jsTrim s.app.formData.description ≠ "")
    (h1 : -8640000000000000 ≤ clock (s.world.reads + 1))
    (h2 : clock (s.world.reads + 1) ≤ 8640000000000000) :
    (createProposal clock key s).world.calls =
        s.world.calls ++
          [⟨"createProposal",
            [.num (.int (clock s.world.reads)), .str s.app.formData.title,
             .str s.app.formData.description,
             .num (computeDeadline (clock (s.world.reads + 1)) s.app.formData.deadline)]⟩] ∧
      (∀ p : Int, s.app.formData.deadline = .int p → -1000000000000 ≤ p → p ≤ 1000000000000 →
        computeDeadline (clock (s.world.reads + 1)) s.app.formData.deadline =
          .int (clock (s.world.reads + 1) / 1000 + p * 3600)) ∧
      (s.app.formData.deadline = .nan →
        computeDeadline (clock (s.world.reads + 1)) s.app.formData.deadline = .nan) ∧
      (laterThan (.num (computeDeadline (clock (s.world.reads + 1)) s.app.formData.deadline))
          (clock (s.world.reads + 1) / 1000) = true ↔
        (s.app.formData.deadline = .posInf ∨
          ∃ p : Int, s.app.formData.deadline = .int p ∧ 1 ≤ p)) := by
  have hb : (blank s.app.formData.title || blank s.app.formData.description) = false := by
    rw [Bool.or_eq_false_iff]
    constructor
    · cases h : blank s.app.formData.title
      · rfl
      · exact absurd ((blank_iff _).1 h) ht
    · cases h : blank s.app.formData.description
      · rfl
      · exact absurd ((blank_iff _).1 h) hd
  refine ⟨?_, ?_, ?_, ?_⟩
  · rw [createProposal_submits clock key s hc hb]
  · intro p hp hp1 hp2
    rw [hp]
    exact computeDeadline_exact _ p h1 h2 hp1 hp2
  · intro hp
    rw [hp]
    rfl
  · exact computeDeadline_later_iff _ _ h1 h2

/-- Witness for C3: a connected session, title 'A', description 'B', period 72 hours. -/
theorem createProposal_deadline_unchecked_witness :
    (demoSys ⟨"A", "B", .int 72⟩).app.connected = true ∧
      jsTrim (demoSys ⟨"A", "B", .int 72⟩).app.formData.title ≠ "" ∧
      jsTrim (demoSys ⟨"A", "B", .int 72⟩).app.formData.description ≠ "" ∧
      -8640000000000000 ≤ demoClock ((demoSys ⟨"A", "B", .int 72⟩).world.reads + 1) ∧
      demoClock ((demoSys ⟨"A", "B", .int 72⟩).world.reads + 1) ≤ 8640000000000000 ∧
      (createProposal demoClock demoKey (demoSys ⟨"A", "B", .int 72⟩)).world.calls =
        [⟨"createProposal",
          [.num (.int 1700000000000), .str "A", .str "B", .num (.int 1700259200)]⟩] ∧
      laterThan (.num (computeDeadline 1700000000001 (.int 72))) 1700000000 = true :=
  ⟨by decide, by decide, by decide, by decide, by decide,
    (createProposal_deadline_unchecked demoClock demoKey (demoSys ⟨"A", "B", .int 72⟩)
      (by decide) (by decide) (by decide) (by decide) (by decide)).1.trans (by decide),
    (createProposal_deadline_unchecked demoClock demoKey (demoSys ⟨"A", "B", .int 72⟩)
      (by decide) (by decide) (by decide) (by decide) (by decide)).2.2.2.2
      (Or.inr ⟨72, rfl, by decide⟩)⟩

/-! ## C4 -/

/-- C4: `createProposal` calls the client's createProposal if and only if the wallet is
connected and title and description are non-empty after trimming; when the title or
the description is empty or whitespace-only, the client is not called and the
component state (formData, proposals, loading) is unchanged: the handler only
prevents the form's default action and, if connected, alerts
'Please fill in all fields'. -/
theorem createProposal_requires_fields (clock : Nat → Int) (key : Value) (s : Sys) :
    ((∃ args, (createProposal clock key s).world.calls =
          s.world.calls ++ [⟨"createProposal", args⟩]) ↔
        (s.app.connected = true ∧ jsTrim s.app.formData.title ≠ "" ∧
          jsTrim s.app.formData.description ≠ "")) ∧
      ((jsTrim s.app.formData.title = "" ∨ jsTrim s.app.formData.description = "") →
        (createProposal clock key s).world.calls = s.world.calls ∧
          (createProposal clock key s).app = s.app ∧
          (createProposal clock key s).world.trace =
            s.world.trace ++
              (if s.app.connected then [.preventDefault, .alert "Please fill in all fields"]
               else [.preventDefault])) := by
  cases hc : s.app.connected
  · rw [createProposal_disconnected clock key s hc]
    refine ⟨?_, ?_⟩
    · simp [Sys.emit, World.emit]
    · intro _
      simp [Sys.emit, World.emit]
  · cases hb : (blank s.app.formData.title || blank s.app.formData.description)
    · rw [createProposal_submits clock key s hc hb]
      rw [Bool.or_eq_false_iff] at hb
      have ht : jsTrim s.app.formData.title ≠ "" := by
        intro h
        rw [(blank_iff _).2 h] at hb
        exact absurd hb.1 (by decide)
      have hd : jsTrim s.app.formData.description ≠ "" := by
        intro h
        rw [(blank_iff _).2 h] at hb
        exact absurd hb.2 (by decide)
      refine ⟨?_, ?_⟩
      · simp [ht, hd]
      · rintro (h | h)
        · exact absurd h ht
        · exact absurd h hd
    · rw [createProposal_blank clock key s hc hb]
      rw [Bool.or_eq_true] at hb
      have hor : jsTrim s.app.formData.title = "" ∨ jsTrim s.app.formData.description = "" :=
        hb.imp (blank_iff _).1 (blank_iff _).1
      refine ⟨?_, ?_⟩
      · simp only [Sys.emit, World.emit, List.self_eq_append_right, true_and]
        constructor
        · rintro ⟨_, h⟩
          exact absurd h (by simp)
        · rintro ⟨h1, h2⟩
          rcases hor with h | h
          · exact absurd h h1
          · exact absurd h h2
      · intro _
        simp [Sys.emit, World.emit]

/-- Witness for C4: a connected session whose title is whitespace only. -/
theorem createProposal_requires_fields_witness :
    (jsTrim (demoSys ⟨" \t", "B", .int 72⟩).app.formData.title = "" ∨
        jsTrim (demoSys ⟨" \t", "B", .int 72⟩).app.formData.description = "") ∧
      (createProposal demoClock demoKey (demoSys ⟨" \t", "B", .int 72⟩)).world.calls =
        (demoSys ⟨" \t", "B", .int 72⟩).world.calls ∧
      (createProposal demoClock demoKey (demoSys ⟨" \t", "B", .int 72⟩)).app =
        (demoSys ⟨" \t", "B", .int 72⟩).app :=
  ⟨Or.inl (by decide),
    ((createProposal_requires_fields demoClock demoKey (demoSys ⟨" \t", "B", .int 72⟩)).2
      (Or.inl (by decide))).1,
    ((createProposal_requires_fields demoClock demoKey (demoSys ⟨" \t", "B", .int 72⟩)).2
      (Or.inl (by decide))).2.1⟩

/-! ## C5 -/

/-- C5 on the code: two executions of `createProposal` one after the other, with the
clock staying within one millisecond, pass the same id 1700000000000 to the client. -/
theorem same_millisecond_same_id :
    (createProposal frozenClock demoKey
        (createProposal frozenClock demoKey (demoSys ⟨"A", "B", .int 72⟩))).world.calls.map
      (fun c => nthArg c.args 0) =
      [.num (.int 1700000000000), .num (.int 1700000000000)] := by
  decide

/-! ## C6 -/

/-- C6: for every wallet, every clock and every sequence of earlier calls on the client
(createProposal submissions, votes, queries), `program.account.proposal.all()` resolves
with a list of exactly one proposal: id 1, title 'Increase DAO Treasury', description
'Proposal to increase treasury allocation', author `wallet.publicKey`, yesVotes 5,
noVotes 2, deadline `Date.now() + 86400000` and executed false. -/
theorem all_returns_the_mock_proposal (clock : Nat → Int) (wallet : Wallet)
    (ops : List ClientOp) (w : World) :
    ((getAnchorClient clock wallet).all (runOps (getAnchorClient clock wallet) ops w)).1 =
      .ok [⟨.publicKey "11111111111111111111111111111111",
            [("id", .num (.int 1)),
             ("title", .str "Increase DAO Treasury"),
             ("description", .str "Proposal to increase treasury allocation"),
             ("author", wallet.publicKey),
             ("yesVotes", .num (.int 5)),
             ("noVotes", .num (.int 2)),
             ("deadline", .num (.int
               (clock (runOps (getAnchorClient clock wallet) ops w).reads + 86400000))),
             ("executed", .bool false)]⟩] := by
  simp [getAnchorClient, proposalAll, mockAccount, World.dateNow]

/-! ## C7 -/

/-- C7 on the code: for the form title 'A', description 'B' and period 72, the
client's createProposal is called with four arguments and binds its parameter `title`
to the id 1700000000000, `description` to the form's title and `deadline` to the
form's description; the computed deadline 1700259200 is the unbound fourth argument. -/
theorem createProposal_arguments_shifted :
    (createProposal demoClock demoKey (demoSys ⟨"A", "B", .int 72⟩)).world.calls.map
        (fun c => (bindCreateProposal c.args, nthArg c.args 3)) =
      [(⟨.num (.int 1700000000000), .str "A", .str "B"⟩, .num (.int 1700259200))] := by
  decide

/-! ## C8 -/

/-- C8 on the code: a click on 'Vote Yes' of the mock proposal calls the client's vote
with the single argument `true`, so `proposalId` is bound to `true` and `support` to
`undefined`, as the client's own log line shows. -/
theorem vote_arguments_shifted :
    (clickVote demoClock ⟨mockKey, mockAccount demoWallet.publicKey 1700086400000⟩ true
        (demoSys initialFormData)).world.calls.map (fun c => bindVote c.args) =
        [⟨.bool true, .undefined⟩] ∧
      (clickVote demoClock ⟨mockKey, mockAccount demoWallet.publicKey 1700086400000⟩ true
        (demoSys initialFormData)).world.trace.head? =
        some (.consoleLog "Voting on proposal:"
          (.obj [("proposalId", .bool true), ("support", .undefined)])) := by
  decide

/-! ## C9 -/

/-- C9 on the code: for the record that `all()` returns, whose yesVotes is 5 and
noVotes is 2, the list renders 'For: 0' and 'Against: 0'. -/
theorem rendered_votes_are_zero :
    (renderProposals (loadProposals demoClock (demoSys initialFormData)).app).map
        (fun r => (r.votesFor, r.votesAgainst)) = [("0", "0")] ∧
      (loadProposals demoClock (demoSys initialFormData)).app.proposals.map
        (fun p => (getProp p.account "yesVotes", getProp p.account "noVotes")) =
        [(.num (.int 5), .num (.int 2))] := by
  decide

/-! ## C10 -/

/-- C10 on the code: fetched at 1700000000000 ms, the mock proposal's deadline is
1700086400000, and the list renders the date at 1700086400000000 ms, not the instant
24 hours after the fetch. -/
theorem rendered_deadline_scaled :
    (loadProposals demoClock (demoSys initialFormData)).app.proposals.map
        (fun p => getProp p.account "deadline") = [.num (.int (1700000000000 + 86400000))] ∧
      (renderProposals (loadProposals demoClock (demoSys initialFormData)).app).map
        (fun r => r.deadline) = [some (.ms 1700086400000000)] ∧
      DateValue.ms 1700086400000000 ≠ DateValue.ms (1700000000000 + 86400000) := by
  decide

end AstraDapp
